import Mathlib

/-!
Verification of the aggregation-and-layout pipeline of the `upskill`
dashboard. The definitions below are a shallow embedding of the
JavaScript source files:

* `js/utils/dom.utils.js` — `getProjectNameFromPath` and helpers;
* `js/components/xp-chart.component.js` — `processData`,
  `calculateDimensions`, the `render` flow (sorting, top-10 truncation,
  scale, bar geometry, degenerate-case messages);
* `js/components/skills-chart.component.js` — `processData` and `render`;
* `js/services/api.service.js` — `fetchBestFriends` counting;
* `js/app.js` — `displayActivity` day binning, `populateProjectsTable`
  filter, `displayCollaborators` top-8 truncation.

JavaScript strings are modelled as `String` (operated on via `String.data`,
`List Char`, so that everything reduces in the kernel); JavaScript numbers
are modelled as `ℚ` (exact arithmetic; `NaN`/`Infinity` are outside the
model), and a possibly-missing / non-string `type` field as `Option String`,
a possibly-missing / non-numeric `amount` as `Option ℚ`.
-/

/-- JavaScript truthiness of an optional string: `undefined`/`null` and the
empty string are falsy. Models a JS expression `!x` on a string-or-missing
field. -/
def jsFalsyStr : Option String → Bool
  | none => true
  | some s => s = ""

/-- JS `x || d` for numbers, where `x` is `0` or a positive value
(the only falsy number in the model is `0`). -/
def jsOrQ (x d : ℚ) : ℚ := if x = 0 then d else x

/-- JS `String.prototype.split` with a single-character separator:
always returns at least one (possibly empty) segment. -/
def splitOnChar (c : Char) : List Char → List (List Char)
  | [] => [[]]
  | x :: xs =>
    let rest := splitOnChar c xs
    if x = c then [] :: rest
    else
      match rest with
      | [] => [[x]]
      | seg :: segs => (x :: seg) :: segs

/-- JS regex test `/^\d+$/`: non-empty and all ASCII digits. -/
def isNumericSeg (s : List Char) : Bool := !s.isEmpty && s.all (·.isDigit)

/-- The characters of the literal `"piscine-"` stripped by
`getProjectNameFromPath`. -/
def piscineToken : List Char := "piscine-".data

/-- The characters of the literal `"quest-"` stripped by
`getProjectNameFromPath`. -/
def questToken : List Char := "quest-".data

/-- The two anchored replaces of `dom.utils.js` run in sequence: first an
initial `piscine-` is removed, then an initial `quest-` is removed from the
result. -/
def stripKnownTokens (s : List Char) : List Char :=
  let s1 := if piscineToken.isPrefixOf s then s.drop piscineToken.length else s
  if questToken.isPrefixOf s1 then s1.drop questToken.length else s1

/-- JS `word.charAt(0).toUpperCase() + word.slice(1)` (ASCII case map;
the inputs relevant to the claims are ASCII). -/
def capitalizeWord : List Char → List Char
  | [] => []
  | c :: cs => c.toUpper :: cs

/-- JS `Array.prototype.join(' ')`. -/
def joinWithSpace : List (List Char) → List Char
  | [] => []
  | [w] => w
  | w :: ws => w ++ ' ' :: joinWithSpace ws

/-- `getProjectNameFromPath` from `js/utils/dom.utils.js`, line for line:
falsy path → `"Unknown Project"`; split on `/`; last segment (or
`"Unnamed Project"` if empty); if that is empty or purely numeric and there
is more than one segment, take the second-to-last segment instead (one step
back only); strip the `piscine-` / `quest-` tokens; split on `-`,
capitalize each word, join with spaces. -/
def getProjectNameFromPath (path : Option String) : String :=
  match path with
  | none => "Unknown Project"
  | some p =>
    if p.data.isEmpty then "Unknown Project"
    else
      let parts := splitOnChar '/' p.data
      let lastSeg := parts.getLastD []
      let name0 := if lastSeg.isEmpty then "Unnamed Project".data else lastSeg
      let name1 :=
        if (name0.isEmpty || isNumericSeg name0) && parts.length > 1 then
          let seg2 := parts.getD (parts.length - 2) []
          if seg2.isEmpty then "Unnamed Project".data else seg2
        else name0
      String.mk (joinWithSpace ((splitOnChar '-' (stripKnownTokens name1)).map capitalizeWord))

example : getProjectNameFromPath (some "piscine-go/quest-01/42") = "01" := by decide
example : getProjectNameFromPath (some "piscine-") = "" := by decide
example : getProjectNameFromPath none = "Unknown Project" := by decide
example : getProjectNameFromPath (some "div-01/a-long-name") = "A Long Name" := by decide

/-! ### Records and the XP aggregation (`xp-chart.component.js`) -/

/-- A transaction record as consumed by the charts and the table:
`type` missing/null is `none`, a non-numeric `amount` is `none`. -/
structure Transaction where
  type : Option String
  amount : Option ℚ
  path : Option String

/-- The filter of `XpChartComponent.processData`:
`(!tx.type || tx.type === 'xp') && typeof tx.amount === 'number' && tx.amount > 0`. -/
def xpTxFilter (tx : Transaction) : Bool :=
  (jsFalsyStr tx.type || decide (tx.type = some "xp")) &&
    (match tx.amount with
     | some a => decide (0 < a)
     | none => false)

/-- The filter of `App.populateProjectsTable`:
`(!t.type || t.type === 'xp') && typeof t.amount === 'number'`. -/
def tableXpFilter (t : Transaction) : Bool :=
  (jsFalsyStr t.type || decide (t.type = some "xp")) && t.amount.isSome

/-- The numeric amount of a record; after `xpTxFilter` the field is always
`some`, so the `0` default is never reached on filtered records. -/
def txAmount (tx : Transaction) : ℚ := tx.amount.getD 0

/-- `projectXP[name] = (projectXP[name] || 0) + tx.amount`: add `v` to the
entry for key `k` of the insertion-ordered association list, appending a
fresh entry when the key is new. -/
def bumpByQ : List (String × ℚ) → String → ℚ → List (String × ℚ)
  | [], k, v => [(k, v)]
  | (k', v') :: rest, k, v =>
    if k' = k then (k', v' + v) :: rest else (k', v') :: bumpByQ rest k v

namespace XpChart

/-- `XpChartComponent.processData`: filter, then fold the filtered
transactions into per-project XP totals keyed by
`getProjectNameFromPath(tx.path)`. The association list models the JS
object together with `Object.entries`. -/
def processData (txs : List Transaction) : List (String × ℚ) :=
  (txs.filter xpTxFilter).foldl
    (fun acc tx => bumpByQ acc (getProjectNameFromPath tx.path) (txAmount tx)) []

end XpChart

/-- Sum of the values of a series. -/
def sumValues (l : List (String × ℚ)) : ℚ := (l.map Prod.snd).sum

/-- Sum of the `amount` fields of a record list. -/
def sumAmounts (txs : List Transaction) : ℚ := (txs.map txAmount).sum

/-- Modelled from the spec's words (section 4.1 and the claim text), NOT from
the source: the validity filter as the claim states it, requiring the `type`
field to be literally `"xp"`. The source (`xpTxFilter`) additionally accepts
records with a falsy `type`. -/
def specClaimedXpFilter (tx : Transaction) : Bool :=
  decide (tx.type = some "xp") &&
    (match tx.amount with
     | some a => decide (0 < a)
     | none => false)

/-! ### Sorting and top-N truncation -/

/-- The ordering used by `projects.sort((a, b) => b[1] - a[1])`:
descending by value. -/
def byValueDesc (a b : String × ℚ) : Prop := b.2 ≤ a.2

instance : DecidableRel byValueDesc := fun a b => inferInstanceAs (Decidable (b.2 ≤ a.2))

instance : IsTotal (String × ℚ) byValueDesc := ⟨fun a b => le_total b.2 a.2⟩

instance : IsTrans (String × ℚ) byValueDesc := ⟨fun _ _ _ h1 h2 => le_trans h2 h1⟩

/-- The stable descending sort performed by `Array.prototype.sort` with
comparator `(a, b) => b[1] - a[1]` (ECMAScript sorts are stable, and a
stable sort for a total preorder is unique, so insertion sort realizes it). -/
def sortDescQ (l : List (String × ℚ)) : List (String × ℚ) := l.insertionSort byValueDesc

/-- Sort descending by value, keep the first `n` entries
(`.sort(...).slice(0, n)`). -/
def sortTrunc (l : List (String × ℚ)) (n : ℕ) : List (String × ℚ) := (sortDescQ l).take n

/-- Same ordering for the collaborator series, whose values are counts. -/
def byCountDesc (a b : String × ℕ) : Prop := b.2 ≤ a.2

instance : DecidableRel byCountDesc := fun a b => inferInstanceAs (Decidable (b.2 ≤ a.2))

instance : IsTotal (String × ℕ) byCountDesc := ⟨fun a b => le_total b.2 a.2⟩

instance : IsTrans (String × ℕ) byCountDesc := ⟨fun _ _ _ h1 h2 => le_trans h2 h1⟩

/-- `.sort((a, b) => b.count - a.count)` in `fetchBestFriends`. -/
def sortDescN (l : List (String × ℕ)) : List (String × ℕ) := l.insertionSort byCountDesc

/-! ### Dimensions, scale and bar geometry -/

/-- The fixed margin object of a chart component. Field order follows the
source literal `{ top, right, bottom, left }`. -/
structure Margin where
  top : ℚ
  right : ℚ
  bottom : ℚ
  left : ℚ

/-- `{ top: 40, right: 30, bottom: 120, left: 70 }` of
`XpChartComponent.calculateDimensions`. -/
def xpMargin : Margin := ⟨40, 30, 120, 70⟩

/-- `{ top: 40, right: 30, bottom: 100, left: 70 }` of
`SkillsChartComponent.calculateDimensions`. -/
def skillsMargin : Margin := ⟨40, 30, 100, 70⟩

/-- `calculateDimensions` common to both chart components: inner chart
width/height from the viewport and margins, `none` when either is
non-positive (the source returns `null`). -/
def calculateDimensions (svgWidth svgHeight : ℚ) (m : Margin) : Option (ℚ × ℚ) :=
  let chartWidth := svgWidth - m.left - m.right
  let chartHeight := svgHeight - m.top - m.bottom
  if chartWidth ≤ 0 ∨ chartHeight ≤ 0 then none else some (chartWidth, chartHeight)

/-- `scaleY = val => chartHeight - (val / (maxXP || 1)) * chartHeight` of
`XpChartComponent.render`. -/
def scaleY (chartHeight maxXP val : ℚ) : ℚ :=
  chartHeight - (val / jsOrQ maxXP 1) * chartHeight

/-- `Math.max(...values, 0)`. -/
def listMax0 (l : List ℚ) : ℚ := l.foldr max 0

/-- One paint-ready bar: the `rect` attributes set by `renderBars` /
`renderBarsAndLabels`, plus the label and source value. -/
structure BarGeom where
  label : String
  x : ℚ
  y : ℚ
  width : ℚ
  height : ℚ
  value : ℚ
deriving DecidableEq

/-- The outcome of a render pass: either one of the explicit message states
(`renderEmptyState(msg)`) or the list of bar rectangles. -/
inductive RenderResult where
  | emptyState (msg : String)
  | chart (bars : List BarGeom)
deriving DecidableEq

/-- Message of `XpChartComponent.render` for an empty series. -/
def xpNoDataMsg : String := "No project XP data available"

/-- Message of both components when `calculateDimensions` returns `null`. -/
def tooSmallMsg : String := "Chart cannot be rendered (too small)."

/-- Message of `XpChartComponent.render` when the top projects are all at
`0` XP. -/
def xpAllZeroMsg : String := "All projects have 0 XP"

/-- Message of `SkillsChartComponent.render` for an empty aggregated series. -/
def skillsNoDataMsg : String := "No skill data to display."

/-- Message of `SkillsChartComponent.render` when all aggregated amounts
are `0`. -/
def skillsAllZeroMsg : String := "All skills have 0% progress."

/-- The bars produced by `XpChartComponent.renderBars` for the top
projects: `barPadding = 0.3`, uniform slots of width `chartWidth / n`,
`Math.max(0, ·)` clamps on width and height. -/
def xpBars (top : List (String × ℚ)) (m : Margin) (chartWidth chartHeight maxXP : ℚ) :
    List BarGeom :=
  let n : ℚ := (top.length : ℚ)
  let barWidth := chartWidth / n * (1 - 3/10)
  top.enum.map fun ip =>
    let i : ℚ := (ip.1 : ℚ)
    let p := ip.2
    let x := m.left + i * (chartWidth / n) + chartWidth / n * (3/10) / 2
    let y := m.top + scaleY chartHeight maxXP p.2
    let h := chartHeight - scaleY chartHeight maxXP p.2
    ⟨p.1, x, y, max 0 barWidth, max 0 h, p.2⟩

/-- The layout portion of `XpChartComponent.render`, starting from the
series `Object.entries(projectXP)`: empty-series check, stable descending
sort, top-10 truncation, dimension check, all-zero check, bar geometry. -/
def xpLayout (series : List (String × ℚ)) (svgWidth svgHeight : ℚ) : RenderResult :=
  if series.isEmpty then .emptyState xpNoDataMsg
  else
    let top := sortTrunc series 10
    match calculateDimensions svgWidth svgHeight xpMargin with
    | none => .emptyState tooSmallMsg
    | some (chartWidth, chartHeight) =>
      let maxXP := listMax0 (top.map Prod.snd)
      if maxXP = 0 ∧ 0 < top.length then .emptyState xpAllZeroMsg
      else .chart (xpBars top xpMargin chartWidth chartHeight maxXP)

/-- `XpChartComponent.render` end to end: aggregate the transactions, then
lay the resulting series out. -/
def xpRender (txs : List Transaction) (svgWidth svgHeight : ℚ) : RenderResult :=
  xpLayout (XpChart.processData txs) svgWidth svgHeight

/-! ### Skills aggregation and layout (`skills-chart.component.js`) -/

/-- A raw skill record: `{ type, amount }`. -/
structure Skill where
  type : String
  amount : ℚ

/-- `skill.type.replace(/^skill_/, '')`. -/
def stripSkillToken (s : String) : String :=
  let pre := "skill_".data
  if pre.isPrefixOf s.data then String.mk (s.data.drop pre.length) else s

/-- `if (!skillsMap[t] || skillsMap[t] < amount) skillsMap[t] = amount`:
update the entry for `k` to `v` when the stored value is `0` (JS falsy) or
smaller than `v`; append when the key is new. Positions of existing keys
are preserved, as for a JS object. -/
def updateMax : List (String × ℚ) → String → ℚ → List (String × ℚ)
  | [], k, v => [(k, v)]
  | (k', v') :: rest, k, v =>
    if k' = k then
      (if v' = 0 ∨ v' < v then (k', v) :: rest else (k', v') :: rest)
    else (k', v') :: updateMax rest k v

namespace SkillsChart

/-- `SkillsChartComponent.processData`: deduplicate by normalized skill
type keeping the maximum amount, reconstruct the `skill_` names, sort
descending by amount, keep the top 10. -/
def processData (skills : List Skill) : List (String × ℚ) :=
  let entries := skills.foldl (fun acc sk => updateMax acc (stripSkillToken sk.type) sk.amount) []
  sortTrunc (entries.map fun p => ("skill_" ++ p.1, p.2)) 10

end SkillsChart

/-- `scaleY = val => (val / (maxAmount || 1)) * chartHeight` of
`SkillsChartComponent.render` (bar height, not top position). -/
def skillsScaleY (chartHeight maxAmount val : ℚ) : ℚ :=
  (val / jsOrQ maxAmount 1) * chartHeight

/-- The bars of `SkillsChartComponent.renderBarsAndLabels` (coordinates are
relative to the translated chart group, so no margin offset). -/
def skillsBars (skills : List (String × ℚ)) (chartWidth chartHeight maxAmount : ℚ) :
    List BarGeom :=
  let n : ℚ := (skills.length : ℚ)
  let barWidth := chartWidth / n * (1 - 3/10)
  skills.enum.map fun ip =>
    let i : ℚ := (ip.1 : ℚ)
    let p := ip.2
    let x := i * (chartWidth / n) + chartWidth / n * (3/10) / 2
    let barHeight := skillsScaleY chartHeight maxAmount p.2
    ⟨p.1, x, chartHeight - barHeight, max 0 barWidth, max 0 barHeight, p.2⟩

/-- The layout portion of `SkillsChartComponent.render`, starting from the
aggregated series returned by its `processData`: empty check, dimension
check, all-zero check, bar geometry. -/
def skillsLayout (aggregated : List (String × ℚ)) (svgWidth svgHeight : ℚ) : RenderResult :=
  if aggregated.isEmpty then .emptyState skillsNoDataMsg
  else
    match calculateDimensions svgWidth svgHeight skillsMargin with
    | none => .emptyState tooSmallMsg
    | some (chartWidth, chartHeight) =>
      let maxAmount := listMax0 (aggregated.map Prod.snd)
      if maxAmount = 0 then .emptyState skillsAllZeroMsg
      else .chart (skillsBars aggregated chartWidth chartHeight maxAmount)

/-! ### Collaborator counting (`api.service.js` `fetchBestFriends`) -/

/-- `collaborators[login] = (collaborators[login] || 0) + 1`. -/
def bumpN : List (String × ℕ) → String → List (String × ℕ)
  | [], k => [(k, 1)]
  | (k', n) :: rest, k =>
    if k' = k then (k', n + 1) :: rest else (k', n) :: bumpN rest k

/-- One member of one group: `member.user?.login`, `none` when the user or
login is missing. -/
abbrev MemberLogin := Option String

/-- The body of the inner `forEach`: count a member when its login is
truthy (`if (login)`). -/
def collabStep (acc : List (String × ℕ)) (m : MemberLogin) : List (String × ℕ) :=
  match m with
  | some l => if l = "" then acc else bumpN acc l
  | none => acc

/-- The counting phase of `fetchBestFriends`: every member occurrence in
every group bumps that login's count. A group whose `group` object is
missing contributes the empty member list (`groupEntry.group?.members || []`). -/
def collabCounts (groups : List (List MemberLogin)) : List (String × ℕ) :=
  groups.foldl (fun acc g => g.foldl collabStep acc) []

/-- `fetchBestFriends`: counts converted to `{login, count}` entries and
sorted descending by count. -/
def fetchBestFriends (groups : List (List MemberLogin)) : List (String × ℕ) :=
  sortDescN (collabCounts groups)

/-- `App.displayCollaborators` keeps `collaborators.slice(0, 8)`. -/
def topCollaborators (groups : List (List MemberLogin)) : List (String × ℕ) :=
  (fetchBestFriends groups).take 8

/-- First-match lookup in an association list, `0` when absent: the read
`collaborators[login] || 0` (keys are unique, so first match is the match). -/
def lookupCount : List (String × ℕ) → String → ℕ
  | [], _ => 0
  | (k, n) :: rest, l => if k = l then n else lookupCount rest l

/-! ### Activity day binning (`app.js` `displayActivity`) -/

/-- `activityMap[a.date] = a.count` followed by `activityMap[d] || 0`:
the last write for a date wins, missing dates read `0`. Calendar days are
modelled as day numbers (`ℕ`), counts as `ℕ`. -/
def activityMapLookup (activity : List (ℕ × ℕ)) (d : ℕ) : ℕ :=
  match activity.reverse.find? (fun p => p.1 == d) with
  | some p => p.2
  | none => 0

/-- The cell-producing part of `App.displayActivity`. The source
early-returns with a "No activity data available" message when the
observation list is empty — modelled as `none`. Otherwise it walks one day
at a time from the window start (six calendar months before `today` in the
source; abstracted here as the day number `startDay`) up to and including
`today`, emitting one `(day, count)` cell per day with zero-filled gaps. -/
def displayActivityCells (activity : List (ℕ × ℕ)) (startDay today : ℕ) :
    Option (List (ℕ × ℕ)) :=
  if activity.length = 0 then none
  else
    some ((List.range (today + 1 - startDay)).map
      fun i => (startDay + i, activityMapLookup activity (startDay + i)))

/-! ### Supporting lemmas -/

lemma sumValues_cons (p : String × ℚ) (l : List (String × ℚ)) :
    sumValues (p :: l) = p.2 + sumValues l := by
  simp [sumValues]

lemma sumValues_bumpByQ (acc : List (String × ℚ)) (k : String) (v : ℚ) :
    sumValues (bumpByQ acc k v) = sumValues acc + v := by
  induction acc with
  | nil => simp [bumpByQ, sumValues]
  | cons p rest ih =>
    obtain ⟨k', v'⟩ := p
    by_cases h : k' = k
    · simp only [bumpByQ, if_pos h, sumValues_cons]
      ring
    · simp only [bumpByQ, if_neg h, sumValues_cons, ih]
      ring

lemma sumValues_xpFold (txs : List Transaction) :
    ∀ acc : List (String × ℚ),
      sumValues (txs.foldl
        (fun acc tx => bumpByQ acc (getProjectNameFromPath tx.path) (txAmount tx)) acc) =
      sumValues acc + sumAmounts txs := by
  induction txs with
  | nil => intro acc; simp [sumAmounts]
  | cons tx txs ih =>
    intro acc
    simp only [List.foldl_cons, ih, sumValues_bumpByQ, sumAmounts, List.map_cons, List.sum_cons]
    ring

/-- C1 (amended). The sum of the values of the Series produced by
`XpChartComponent.processData` equals the sum of the `amount` fields of
exactly the records that pass the component's own validity filter
(`type` falsy or `"xp"`, and `amount` a number `> 0`); records failing that
filter contribute nothing. -/
theorem xp_sum_matches_filtered_amounts :
    ∀ txs : List Transaction,
      sumValues (XpChart.processData txs) = sumAmounts (txs.filter xpTxFilter) := by
  intro txs
  unfold XpChart.processData
  rw [sumValues_xpFold]
  simp [sumValues]

/-- C1 (counterexample). The claim's literal filter requires
`type === 'xp'`, but the source also accepts a falsy `type`: a record with
no `type` and amount `5` contributes `5` to the aggregated Series while the
claimed filter assigns it a total contribution of `0`. -/
theorem xp_sum_spec_filter_counterexample :
    sumValues (XpChart.processData [⟨none, some 5, some "solo"⟩]) = 5 ∧
    sumAmounts (([⟨none, some 5, some "solo"⟩] : List Transaction).filter specClaimedXpFilter) = 0 ∧
    (5 : ℚ) ≠ 0 := by
  have hkeep : xpTxFilter ⟨none, some 5, some "solo"⟩ = true := by decide
  have hdrop : specClaimedXpFilter ⟨none, some 5, some "solo"⟩ = false := by decide
  refine ⟨?_, ?_, by norm_num⟩
  · simp [XpChart.processData, List.filter_cons, hkeep, bumpByQ, sumValues, txAmount]
  · simp [sumAmounts, List.filter_cons, hdrop]

/-- C2 (counterexample). `getProjectNameFromPath "piscine-go/quest-01/42"`
does not return `"Go"`: the implementation steps back only one segment from
the numeric `"42"`, landing on `"quest-01"`, not on `"piscine-go"`. -/
theorem projectName_piscine_go_quest_counterexample :
    getProjectNameFromPath (some "piscine-go/quest-01/42") ≠ "Go" := by
  decide

/-- C2 (amended). `getProjectNameFromPath "piscine-go/quest-01/42"` returns
`"01"`: the purely numeric trailing segment causes a single step back to
`"quest-01"` (the algorithm does not walk to the nearest non-numeric
segment), the `quest-` prefix is stripped, and capitalizing `"01"` leaves
it unchanged. -/
theorem projectName_piscine_go_quest :
    getProjectNameFromPath (some "piscine-go/quest-01/42") = "01" := by
  decide

/-- C8 (counterexample). `getProjectNameFromPath` does not always return a
non-empty string: on `"piscine-"` the chosen segment is consumed entirely by
prefix stripping and the empty string is returned. -/
theorem projectName_empty_result_counterexample :
    getProjectNameFromPath (some "piscine-") = "" := by
  decide

/-- C8 (amended). `getProjectNameFromPath` is total (a pure function that
never throws) and degrades to the fixed non-empty placeholder
`"Unknown Project"` for `null` and empty inputs, but its result is not
always non-empty: the input `"piscine-"` yields `""`. -/
theorem projectName_placeholder_fallback :
    getProjectNameFromPath none = "Unknown Project" ∧
    getProjectNameFromPath (some "") = "Unknown Project" ∧
    ("Unknown Project" : String) ≠ "" ∧
    (getProjectNameFromPath (some "piscine-")).length = 0 := by
  refine ⟨by decide, by decide, by decide, by decide⟩

/-- C5. The scale of `XpChartComponent.render` maps
`v ↦ chartHeight - (v / effectiveMax) * chartHeight` with
`effectiveMax = maxValue` when `maxValue > 0` and `1` otherwise; with
`maxValue = 0` no division by zero occurs and `0` maps to the baseline
`chartHeight`. -/
theorem scaleY_division_guard :
    (∀ (v maxValue ch : ℚ), 0 ≤ maxValue →
      scaleY ch maxValue v = ch - (v / (if 0 < maxValue then maxValue else 1)) * ch) ∧
    (∀ ch : ℚ, scaleY ch 0 0 = ch) := by
  constructor
  · intro v maxValue ch hnn
    by_cases h : maxValue = 0
    · subst h
      simp [scaleY, jsOrQ]
    · have hpos : 0 < maxValue := lt_of_le_of_ne hnn (Ne.symm h)
      simp [scaleY, jsOrQ, h, hpos]
  · intro ch
    simp [scaleY, jsOrQ]

/-- Witness for C5 at `maxValue = 0`, `chartHeight = 200`, `v = 7`. -/
theorem scaleY_division_guard_witness :
    scaleY 200 0 7 = 200 - (7 / (if (0:ℚ) < 0 then (0:ℚ) else 1)) * 200 ∧
    scaleY 200 0 0 = 200 :=
  ⟨scaleY_division_guard.1 7 0 200 (by norm_num), scaleY_division_guard.2 200⟩

/-- C10. A record whose `type` is absent or falsy (`undefined`/`null`/`""`)
and whose `amount` is a positive number passes the XP chart filter and the
projects-table filter, and its amount is included in the aggregated
Series as if it were an XP transaction. -/
theorem falsy_type_records_included :
    ∀ (tx : Transaction) (a : ℚ),
      jsFalsyStr tx.type = true → tx.amount = some a → 0 < a →
      xpTxFilter tx = true ∧ tableXpFilter tx = true ∧
      sumValues (XpChart.processData [tx]) = a := by
  intro tx a hft hamt hpos
  have hfilter : xpTxFilter tx = true := by
    simp [xpTxFilter, hft, hamt, hpos]
  refine ⟨hfilter, ?_, ?_⟩
  · simp [tableXpFilter, hft, hamt]
  · simp [XpChart.processData, List.filter_cons, hfilter, bumpByQ, sumValues, txAmount, hamt]

/-- Witness for C10: a record with no `type` at all and amount `5`. -/
theorem falsy_type_records_included_witness :
    xpTxFilter ⟨none, some 5, some "p"⟩ = true ∧
    tableXpFilter ⟨none, some 5, some "p"⟩ = true ∧
    sumValues (XpChart.processData [⟨none, some 5, some "p"⟩]) = 5 :=
  falsy_type_records_included ⟨none, some 5, some "p"⟩ 5 (by decide) rfl (by norm_num)

/-! ### Stability of the descending sort -/

lemma filter_orderedInsert (x : String × ℚ) (v : ℚ) :
    ∀ l : List (String × ℚ),
      (l.orderedInsert byValueDesc x).filter (fun p => decide (p.2 = v)) =
        if x.2 = v then x :: l.filter (fun p => decide (p.2 = v))
        else l.filter (fun p => decide (p.2 = v))
  | [] => by
    by_cases h : x.2 = v <;> simp [List.orderedInsert, h]
  | b :: l => by
    rw [List.orderedInsert]
    by_cases hr : byValueDesc x b
    · rw [if_pos hr]
      by_cases h : x.2 = v <;> simp [List.filter_cons, h]
    · rw [if_neg hr]
      have hbx : x.2 < b.2 := not_le.mp hr
      rw [List.filter_cons, List.filter_cons, filter_orderedInsert x v l]
      by_cases h : x.2 = v
      · have hb : ¬ (b.2 = v) := h ▸ hbx.ne'
        simp [h, hb]
      · simp [h]

lemma filter_sortDescQ (l : List (String × ℚ)) (v : ℚ) :
    (sortDescQ l).filter (fun p => decide (p.2 = v)) = l.filter (fun p => decide (p.2 = v)) := by
  induction l with
  | nil => rfl
  | cons x l ih =>
    simp only [sortDescQ, List.insertionSort] at ih ⊢
    rw [filter_orderedInsert]
    by_cases h : x.2 = v
    · rw [if_pos h, ih, List.filter_cons]
      simp [h]
    · rw [if_neg h, ih, List.filter_cons]
      simp [h]

/-- C3. The layout sorts each series descending by value and truncates to
the top N (`slice(0, 10)` for XP and skills, `slice(0, 8)` for
collaborators). The sort is stable (entries with equal values keep their
original encounter order: the filtered subsequence at any value `v` is
unchanged), and on `[(A,100), (B,50), (C,50)]` with `topN = 2` it yields
exactly `[A, B]` — the tie between B and C is resolved in favour of B. -/
theorem layout_sort_truncate_stable :
    (∀ l : List (String × ℚ), List.Sorted byValueDesc (sortDescQ l)) ∧
    (∀ l : List (String × ℚ), (sortDescQ l).Perm l) ∧
    (∀ (l : List (String × ℚ)) (v : ℚ),
      (sortDescQ l).filter (fun p => decide (p.2 = v)) = l.filter (fun p => decide (p.2 = v))) ∧
    (∀ (l : List (String × ℚ)) (n : ℕ), (sortTrunc l n).length = min n l.length) ∧
    (∀ groups : List (List MemberLogin), topCollaborators groups = (fetchBestFriends groups).take 8) ∧
    sortTrunc [("A", 100), ("B", 50), ("C", 50)] 2 = [("A", 100), ("B", 50)] := by
  refine ⟨?_, ?_, filter_sortDescQ, ?_, fun _ => rfl, ?_⟩
  · exact fun l => List.sorted_insertionSort byValueDesc l
  · exact fun l => List.perm_insertionSort byValueDesc l
  · intro l n
    simp only [sortTrunc, sortDescQ, List.length_take,
      (List.perm_insertionSort byValueDesc l).length_eq]
  · decide

/-! ### Degenerate layout conditions -/

lemma length_sortTrunc (l : List (String × ℚ)) (n : ℕ) :
    (sortTrunc l n).length = min n l.length := by
  simp only [sortTrunc, sortDescQ, List.length_take,
    (List.perm_insertionSort byValueDesc l).length_eq]

lemma mem_of_mem_sortTrunc {p : String × ℚ} {l : List (String × ℚ)} {n : ℕ}
    (h : p ∈ sortTrunc l n) : p ∈ l :=
  ((List.perm_insertionSort byValueDesc l).mem_iff).mp (List.take_subset n (sortDescQ l) h)

lemma listMax0_eq_zero {l : List ℚ} (h : ∀ x ∈ l, x = 0) : listMax0 l = 0 := by
  induction l with
  | nil => rfl
  | cons x l ih =>
    have hx : x = 0 := h x (List.mem_cons_self x l)
    have hl : listMax0 l = 0 := ih fun y hy => h y (List.mem_cons_of_mem x hy)
    simp only [listMax0, List.foldr_cons] at hl ⊢
    rw [hx, hl, max_self]

/-- C4. `calculateDimensions` returns `none` (`ChartTooSmall`) whenever the
inner width or height is non-positive, for any viewport and margins; the
render path then reports the too-small message and produces no geometry at
all; in particular a 10x10 viewport with the XP chart's margins
`{left 70, right 30, top 40, bottom 120}` is rejected. -/
theorem layout_reports_chart_too_small :
    (∀ (w h : ℚ) (m : Margin),
      (w - m.left - m.right ≤ 0 ∨ h - m.top - m.bottom ≤ 0) →
      calculateDimensions w h m = none) ∧
    (∀ (series : List (String × ℚ)) (w h : ℚ),
      series ≠ [] → calculateDimensions w h xpMargin = none →
      xpLayout series w h = .emptyState tooSmallMsg) ∧
    xpLayout [("A", 5)] 10 10 = .emptyState tooSmallMsg := by
  have hdim : ∀ (w h : ℚ) (m : Margin),
      (w - m.left - m.right ≤ 0 ∨ h - m.top - m.bottom ≤ 0) →
      calculateDimensions w h m = none := by
    intro w h m hc
    simp only [calculateDimensions]
    rw [if_pos hc]
  have hlay : ∀ (series : List (String × ℚ)) (w h : ℚ),
      series ≠ [] → calculateDimensions w h xpMargin = none →
      xpLayout series w h = .emptyState tooSmallMsg := by
    intro series w h hne hd
    have he : series.isEmpty = false := by
      cases series with
      | nil => exact absurd rfl hne
      | cons a l => rfl
    simp [xpLayout, he, hd]
  refine ⟨hdim, hlay, ?_⟩
  apply hlay
  · simp
  · apply hdim
    left
    norm_num [xpMargin]

/-- Witness for C4: the 10x10 viewport of the claim. -/
theorem layout_reports_chart_too_small_witness :
    calculateDimensions 10 10 xpMargin = none ∧
    xpLayout [("A", 5)] 10 10 = RenderResult.emptyState tooSmallMsg :=
  ⟨layout_reports_chart_too_small.1 10 10 xpMargin (Or.inl (by norm_num [xpMargin])),
   layout_reports_chart_too_small.2.2⟩

/-- C9. A non-empty series whose values are all `0`, rendered in a viewport
the dimension check accepts, is reported with the dedicated all-zero
message — distinct from the too-small message — and produces no bar
geometry, in both the XP chart and the skills chart. -/
theorem layout_reports_all_zero :
    (∀ (series : List (String × ℚ)) (w h : ℚ),
      series ≠ [] → (∀ p ∈ series, p.2 = 0) →
      calculateDimensions w h xpMargin ≠ none →
      xpLayout series w h = .emptyState xpAllZeroMsg) ∧
    (∀ (series : List (String × ℚ)) (w h : ℚ),
      series ≠ [] → (∀ p ∈ series, p.2 = 0) →
      calculateDimensions w h skillsMargin ≠ none →
      skillsLayout series w h = .emptyState skillsAllZeroMsg) ∧
    xpAllZeroMsg ≠ tooSmallMsg ∧ skillsAllZeroMsg ≠ tooSmallMsg := by
  refine ⟨?_, ?_, by decide, by decide⟩
  · intro series w h hne hz hd
    obtain ⟨d, hd'⟩ : ∃ d, calculateDimensions w h xpMargin = some d := by
      cases hcd : calculateDimensions w h xpMargin with
      | none => exact absurd hcd hd
      | some d => exact ⟨d, rfl⟩
    obtain ⟨cw, ch⟩ := d
    have he : series.isEmpty = false := by
      cases series with
      | nil => exact absurd rfl hne
      | cons a l => rfl
    have hmax : listMax0 ((sortTrunc series 10).map Prod.snd) = 0 := by
      apply listMax0_eq_zero
      intro x hx
      obtain ⟨p, hp, rfl⟩ := List.mem_map.mp hx
      exact hz p (mem_of_mem_sortTrunc hp)
    have hlen : 0 < (sortTrunc series 10).length := by
      rw [length_sortTrunc]
      exact lt_min (by norm_num) (List.length_pos.mpr hne)
    simp [xpLayout, he, hd', hmax, hlen]
  · intro series w h hne hz hd
    obtain ⟨d, hd'⟩ : ∃ d, calculateDimensions w h skillsMargin = some d := by
      cases hcd : calculateDimensions w h skillsMargin with
      | none => exact absurd hcd hd
      | some d => exact ⟨d, rfl⟩
    obtain ⟨cw, ch⟩ := d
    have he : series.isEmpty = false := by
      cases series with
      | nil => exact absurd rfl hne
      | cons a l => rfl
    have hmax : listMax0 (series.map Prod.snd) = 0 := by
      apply listMax0_eq_zero
      intro x hx
      obtain ⟨p, hp, rfl⟩ := List.mem_map.mp hx
      exact hz p hp
    simp [skillsLayout, he, hd', hmax]

/-- Witness for C9: single all-zero entries in comfortable viewports. -/
theorem layout_reports_all_zero_witness :
    xpLayout [("A", 0)] 500 380 = RenderResult.emptyState xpAllZeroMsg ∧
    skillsLayout [("skill_js", 0)] 500 400 = RenderResult.emptyState skillsAllZeroMsg :=
  ⟨layout_reports_all_zero.1 [("A", 0)] 500 380 (by simp) (by decide)
      (by norm_num [calculateDimensions, xpMargin]; simp),
   layout_reports_all_zero.2.1 [("skill_js", 0)] 500 400 (by simp) (by decide)
      (by norm_num [calculateDimensions, skillsMargin]; simp)⟩

/-! ### Collaborator counting facts -/

lemma lookupCount_bumpN_self (acc : List (String × ℕ)) (l : String) :
    lookupCount (bumpN acc l) l = lookupCount acc l + 1 := by
  induction acc with
  | nil => simp [bumpN, lookupCount]
  | cons p rest ih =>
    obtain ⟨k, n⟩ := p
    by_cases h : k = l
    · simp [bumpN, lookupCount, h]
    · simp [bumpN, lookupCount, h, ih]

lemma lookupCount_bumpN_ne (acc : List (String × ℕ)) {k l : String} (h : k ≠ l) :
    lookupCount (bumpN acc k) l = lookupCount acc l := by
  induction acc with
  | nil => simp [bumpN, lookupCount, h]
  | cons p rest ih =>
    obtain ⟨k', n⟩ := p
    by_cases h' : k' = k
    · subst h'
      simp [bumpN, lookupCount, h]
    · simp only [bumpN, if_neg h', lookupCount]
      by_cases hl : k' = l <;> simp [hl, ih]

lemma lookupCount_collabFold {l : String} (hl : l ≠ "") (ms : List MemberLogin) :
    ∀ acc, lookupCount (ms.foldl collabStep acc) l = lookupCount acc l + ms.count (some l) := by
  induction ms with
  | nil => intro acc; simp
  | cons m ms ih =>
    intro acc
    rw [List.foldl_cons, ih, List.count_cons]
    cases m with
    | none => simp [collabStep]
    | some k =>
      by_cases hk : k = ""
      · subst hk
        have hne : ¬ ((some "" : Option String) == some l) = true := by
          simp [Ne.symm hl]
        simp [collabStep, hne]
      · by_cases hkl : k = l
        · subst hkl
          simp [collabStep, hk, lookupCount_bumpN_self]
          omega
        · have hne : ¬ ((some k : Option String) == some l) = true := by simp [hkl]
          simp [collabStep, hk, lookupCount_bumpN_ne acc hkl, hne]

lemma lookupCount_collabCounts (groups : List (List MemberLogin)) {l : String} (hl : l ≠ "") :
    lookupCount (collabCounts groups) l = groups.flatten.count (some l) := by
  suffices h : ∀ acc, lookupCount (groups.foldl (fun acc g => g.foldl collabStep acc) acc) l
      = lookupCount acc l + groups.flatten.count (some l) by
    simpa [collabCounts, lookupCount] using h []
  induction groups with
  | nil => intro acc; simp
  | cons g groups ih =>
    intro acc
    rw [List.foldl_cons, ih, lookupCount_collabFold hl g acc]
    simp [List.count_append]
    omega

/-- C6 (counterexample). `fetchBestFriends` does not exclude the querying
user: `"me"` denotes the user (who, in the response of the groups query, is
a member of every listed group), yet `("me", 2)` appears in the
collaborator Series — in fact at its head, since the user co-occurs in
every group. -/
theorem fetchBestFriends_includes_self_counterexample :
    ("me", 2) ∈ fetchBestFriends [[some "me", some "alice"], [some "me", some "alice"]] := by
  decide

/-- C6 (amended). The collaborator count uses every member occurrence as
its key — including the user's own login, which is not excluded — and
co-memberships accumulate across groups rather than being deduplicated:
for every truthy login `l`, its count in the accumulated table equals the
total number of occurrences of `l` across all groups' member lists, and
the returned Series is a permutation (descending-sorted) of that table. -/
theorem collab_counts_accumulate :
    ∀ (groups : List (List MemberLogin)) (l : String), l ≠ "" →
      lookupCount (collabCounts groups) l = groups.flatten.count (some l) ∧
      (fetchBestFriends groups).Perm (collabCounts groups) :=
  fun groups l hl =>
    ⟨@lookupCount_collabCounts groups l hl, List.perm_insertionSort byCountDesc _⟩

/-- Witness for C6: `"alice"` shares two groups with the user and is
counted twice. -/
theorem collab_counts_accumulate_witness :
    lookupCount (collabCounts [[some "me", some "alice"], [some "me", some "alice"]]) "alice" =
      ([[some "me", some "alice"], [some "me", some "alice"]] :
        List (List MemberLogin)).flatten.count (some "alice") ∧
    (fetchBestFriends [[some "me", some "alice"], [some "me", some "alice"]]).Perm
      (collabCounts [[some "me", some "alice"], [some "me", some "alice"]]) :=
  collab_counts_accumulate [[some "me", some "alice"], [some "me", some "alice"]] "alice"
    (by decide)

/-! ### Activity binning facts -/

lemma activityMapLookup_eq_zero {activity : List (ℕ × ℕ)} {d : ℕ}
    (h : ∀ p ∈ activity, p.1 ≠ d) : activityMapLookup activity d = 0 := by
  unfold activityMapLookup
  have hf : activity.reverse.find? (fun p => p.1 == d) = none := by
    apply List.find?_eq_none.mpr
    intro p hp
    simp [h p (List.mem_reverse.mp hp)]
  rw [hf]

/-- C7 (counterexample). On an empty observation list the activity view
early-returns with its "No activity data available" message and emits no
day buckets at all (`none`), not the claimed 181 zero-count buckets. -/
theorem displayActivity_empty_counterexample :
    displayActivityCells [] 0 180 = none := by
  rfl

/-- C7 (amended). On an empty observation list `displayActivity` renders
the empty-state message and produces no buckets; for a non-empty list it
produces one bucket per calendar day of the inclusive window
`[startDay, today]`, in ascending order with no gaps or repeats (the bucket
at index `i` carries day `startDay + i`), and days with no observation get
count `0`. (In the source the window start is six calendar months before
today, not 180 days.) -/
theorem displayActivity_dense_window :
    (∀ s t : ℕ, displayActivityCells [] s t = none) ∧
    (∀ (activity : List (ℕ × ℕ)) (s t : ℕ), activity ≠ [] → s ≤ t →
      ∃ l, displayActivityCells activity s t = some l ∧
        l.length = t + 1 - s ∧
        (∀ (i : ℕ) (h : i < l.length), (l.get ⟨i, h⟩).1 = s + i) ∧
        (∀ (i : ℕ) (h : i < l.length),
          (∀ p ∈ activity, p.1 ≠ s + i) → (l.get ⟨i, h⟩).2 = 0)) := by
  constructor
  · intro s t
    rfl
  · intro activity s t hne _hst
    have hlen0 : ¬ activity.length = 0 := fun h => hne (List.length_eq_zero.mp h)
    refine ⟨(List.range (t + 1 - s)).map
      (fun i => (s + i, activityMapLookup activity (s + i))), ?_, ?_, ?_, ?_⟩
    · unfold displayActivityCells
      rw [if_neg hlen0]
    · simp
    · intro i h
      simp
    · intro i h hno
      simp only [List.get_eq_getElem, List.getElem_map, List.getElem_range]
      exact activityMapLookup_eq_zero hno

/-- Witness for C7: a single observation on day 5, window `[0, 2]`. -/
theorem displayActivity_dense_window_witness :
    ∃ l, displayActivityCells [(5, 3)] 0 2 = some l ∧
      l.length = 2 + 1 - 0 ∧
      (∀ (i : ℕ) (h : i < l.length), (l.get ⟨i, h⟩).1 = 0 + i) ∧
      (∀ (i : ℕ) (h : i < l.length),
        (∀ p ∈ [((5:ℕ), (3:ℕ))], p.1 ≠ 0 + i) → (l.get ⟨i, h⟩).2 = 0) :=
  displayActivity_dense_window.2 [(5, 3)] 0 2 (by decide) (by decide)
